import Mathlib

/-!
Shallow embedding of the client-side synchronization core of the
esp32-dashboard repository: the reading store merge handlers, the poll
fallback, the relay toggle handlers and the derived-view calculations
found in `src/src/App.jsx` and the variants `src/unnamed/part_001` and
`src/unnamed/part_002`.
-/

/-- A sensor sample as stored in the React state array `data`:
`{ temperature, humidity, inserted_at }`.  The timestamp is modelled as
a natural number, the value of `new Date(item.inserted_at).getTime()`
used by every comparison in the source; `temperature` and `humidity`
are `Option ℚ` because a realtime payload row may lack the field
(JS `undefined` or `null`). -/
structure Reading where
  inserted_at : Nat
  temperature : Option ℚ
  humidity : Option ℚ
deriving DecidableEq

/-- The ordering applied by the sort comparator
`(a, b) => new Date(a.inserted_at) - new Date(b.inserted_at)`:
ascending by timestamp. -/
def tsLe (a b : Reading) : Prop := a.inserted_at ≤ b.inserted_at

instance : DecidableRel tsLe :=
  fun a b => inferInstanceAs (Decidable (a.inserted_at ≤ b.inserted_at))

instance : IsTotal Reading tsLe :=
  ⟨fun a b => Nat.le_total a.inserted_at b.inserted_at⟩

instance : IsTrans Reading tsLe :=
  ⟨fun _ _ _ h1 h2 => Nat.le_trans h1 h2⟩

/-- The store sequence is sorted ascending by `inserted_at`
(non-strict, so equal timestamps are allowed to sit next to each
other). -/
def sortedByTs (l : List Reading) : Prop := List.Sorted tsLe l

/-- The `sensor_data` INSERT push handler of `src/src/App.jsx` (lines
100 to 110): the previous array with `payload.new` appended, filtered
to the last 24 hours, then sorted ascending by timestamp.  `cutoff` is
the precomputed instant `twentyFourHoursAgo`; the stable ascending
`Array.prototype.sort` call is modelled by insertion sort over
`tsLe`. -/
def mergePush (cutoff : Nat) (prev : List Reading) (r : Reading) : List Reading :=
  List.insertionSort tsLe
    ((prev ++ [r]).filter (fun item => decide (cutoff ≤ item.inserted_at)))

/-- The `sensor_data` INSERT push handler of the count-bound variant
`src/unnamed/part_002` (lines 91 to 102): append `payload.new` and, if
the array now exceeds 100 entries, keep only the last 100 via
`newData.slice(-100)`. -/
def mergePushCount (prev : List Reading) (r : Reading) : List Reading :=
  let newData := prev ++ [r]
  if newData.length > 100 then newData.drop (newData.length - 100) else newData

/-- The expression
`data.length > 0 ? new Date(data[data.length - 1].inserted_at).getTime() : 0`
from `pollData` in `src/src/App.jsx` (lines 158 to 160). -/
def currentLatestTs (data : List Reading) : Nat :=
  match data.getLast? with
  | some d => d.inserted_at
  | none => 0

/-- One execution of the sensor-data branch of `pollData` in
`src/src/App.jsx` (lines 150 to 171).  `latestRows` is the result of
the descending `limit(1)` probe query and `refetchRows` the result of
the full window refetch that would replace the store; the `Bool`
component records whether the refetch was performed.  The refetch
happens only when the probed timestamp is strictly greater than the
store tail timestamp. -/
def pollStep (data latestRows refetchRows : List Reading) : List Reading × Bool :=
  match latestRows.head? with
  | none => (data, false)
  | some lr =>
    if currentLatestTs data < lr.inserted_at then (refetchRows, true) else (data, false)

/-- One merge operation applied to the reading store, in any of the
three channel shapes the source uses: `bulk` is the initial
`setData(sensorData)` of a window fetch ordered ascending, `push` is
the realtime INSERT handler, and `poll` is the poll-fallback
compare-then-refetch step. -/
inductive MergeOp where
  | bulk (rows : List Reading)
  | push (cutoff : Nat) (r : Reading)
  | poll (latestRows refetchRows : List Reading)

/-- Apply one merge operation to the current store contents. -/
def applyOp (data : List Reading) : MergeOp → List Reading
  | .bulk rows => rows
  | .push cutoff r => mergePush cutoff data r
  | .poll latestRows refetchRows => (pollStep data latestRows refetchRows).1

/-- Apply a whole interleaving of merge operations, oldest first,
starting from the initial store `init`. -/
def applyOps (ops : List MergeOp) (init : List Reading) : List Reading :=
  ops.foldl applyOp init

/-- Well-formedness of an operation: rows delivered by a bulk fetch or
a poll refetch come from a query with
`order(inserted_at, ascending true)`, so they arrive sorted; a push
event carries no such obligation. -/
def opWF : MergeOp → Prop
  | .bulk rows => sortedByTs rows
  | .push _ _ => True
  | .poll _ refetchRows => sortedByTs refetchRows

/-- The component state the relay controls act on: `relay1On`,
`relay2On` and `automaticMode`. -/
structure CtrlState where
  relay1On : Bool
  relay2On : Bool
  automaticMode : Bool
deriving DecidableEq

/-- How a toggle invocation ended: rejected by the mode gate, locally
confirmed after a successful write, or rolled back after a failed
write. -/
inductive ToggleOutcome where
  | blockedByMode
  | confirmed
  | rolledBack
deriving DecidableEq

/-- The observable effect of one complete toggle invocation:
`optimistic` is the state set before the write is awaited (`none` if no
optimistic update happens), `final` the state after the handler
returns, `writes` the command-sink update calls issued (relay id and
written value), and `pendingAfter` whether a write is still in flight
when the handler returns (always `false`: every handler awaits its
write before returning). -/
structure ToggleRun where
  optimistic : Option CtrlState
  final : CtrlState
  outcome : ToggleOutcome
  writes : List (Nat × Bool)
  pendingAfter : Bool
deriving DecidableEq

/-- The run every toggle produces when the mode gate fires: no state
change, no writes. -/
def blockedRun (s : CtrlState) : ToggleRun :=
  { optimistic := none, final := s, outcome := .blockedByMode, writes := [], pendingAfter := false }

/-- `toggleRelay(relayId)` of `src/src/App.jsx` (lines 219 to 242).  In
automatic mode it alerts and returns before touching anything.
Otherwise it computes `newState = !currentState`, issues the
command-sink update, and only on success sets the local relay state
(this variant is not optimistic).  `writeOk` is whether the awaited
update succeeded. -/
def toggleRelay (s : CtrlState) (relayId : Nat) (writeOk : Bool) : ToggleRun :=
  if s.automaticMode then blockedRun s
  else
    let currentState := if relayId = 1 then s.relay1On else s.relay2On
    let newState := !currentState
    if writeOk then
      { optimistic := none
        final := if relayId = 1 then { s with relay1On := newState }
                 else { s with relay2On := newState }
        outcome := .confirmed
        writes := [(relayId, newState)]
        pendingAfter := false }
    else
      { optimistic := none, final := s, outcome := .rolledBack
        writes := [(relayId, newState)], pendingAfter := false }

/-- `toggleRelay1` of `src/unnamed/part_001` (lines 225 to 244).  After
the mode gate it optimistically sets `relay1On` to `newState = !relay1On`,
issues the write, and on failure reverts with `setRelay1On(!newState)`. -/
def toggleRelay1 (s : CtrlState) (writeOk : Bool) : ToggleRun :=
  if s.automaticMode then blockedRun s
  else
    let newState := !s.relay1On
    let sOpt := { s with relay1On := newState }
    if writeOk then
      { optimistic := some sOpt, final := sOpt, outcome := .confirmed
        writes := [(1, newState)], pendingAfter := false }
    else
      { optimistic := some sOpt, final := { sOpt with relay1On := !newState }
        outcome := .rolledBack, writes := [(1, newState)], pendingAfter := false }

/-- `toggleRelay2` of `src/unnamed/part_001` (lines 247 to 266), the
symmetric handler for relay 2. -/
def toggleRelay2 (s : CtrlState) (writeOk : Bool) : ToggleRun :=
  if s.automaticMode then blockedRun s
  else
    let newState := !s.relay2On
    let sOpt := { s with relay2On := newState }
    if writeOk then
      { optimistic := some sOpt, final := sOpt, outcome := .confirmed
        writes := [(2, newState)], pendingAfter := false }
    else
      { optimistic := some sOpt, final := { sOpt with relay2On := !newState }
        outcome := .rolledBack, writes := [(2, newState)], pendingAfter := false }

/-- The synchronous prefix of `toggleRelay1` up to (and including)
issuing the command-sink write, before the write resolves: the mode
gate, the optimistic `setRelay1On(newState)`, and the update call.  The
second component is the write issued, `none` when the mode gate
rejected the call before any write. -/
def toggleRelay1Start (s : CtrlState) : CtrlState × Option (Nat × Bool) :=
  if s.automaticMode then (s, none)
  else
    let newState := !s.relay1On
    ({ s with relay1On := newState }, some (1, newState))

/-- Two invocations of `toggleRelay1` whose synchronous prefixes both
run before either write resolves: the second call starts while the
first write is still in flight.  Returns the state after both prefixes
and the list of command-sink writes issued. -/
def twoStarts (s : CtrlState) : CtrlState × List (Nat × Bool) :=
  let a := toggleRelay1Start s
  let b := toggleRelay1Start a.1
  (b.1, a.2.toList ++ b.2.toList)

/-- `isInRelayRange(temp, relayNum)` of `src/unnamed/part_001` (lines
327 to 334): relay 1 covers `0 <= temp <= 10`, relay 2 covers
`11 <= temp <= 20`, anything else is false. -/
def isInRelayRange (temp : ℚ) (relayNum : Nat) : Bool :=
  if relayNum = 1 then decide (0 ≤ temp ∧ temp ≤ 10)
  else if relayNum = 2 then decide (11 ≤ temp ∧ temp ≤ 20)
  else false

/-- The classification outcomes rendered by the dashboard: the Relay 1
range badge, the Relay 2 range badge, or the outside-control-range
badge. -/
inductive RangeLabel where
  | relay1Range
  | relay2Range
  | unclassified
deriving DecidableEq

/-- Band classification as rendered by `src/unnamed/part_001` (lines
617 to 619 and 794 to 808): the Relay 1 badge when
`isInRelayRange t 1`, the Relay 2 badge when `isInRelayRange t 2`, and
the outside-control-ranges badge exactly when neither range check
holds. -/
def classify (t : ℚ) : RangeLabel :=
  if isInRelayRange t 1 then .relay1Range
  else if isInRelayRange t 2 then .relay2Range
  else .unclassified

/-- The latest-value projection of `src/src/App.jsx` (lines 212 to
213): `latestReading = filteredData[filteredData.length - 1]` followed
by `currentTemp = latestReading?.temperature || null`.  The JS `||`
yields `null` when the left side is falsy, which covers a missing
array element, a missing field, and the number `0`. -/
def currentTemp (filteredData : List Reading) : Option ℚ :=
  match filteredData.getLast? with
  | none => none
  | some r =>
    match r.temperature with
    | none => none
    | some t => if t = 0 then none else some t

/-- The value inside the windowed average of `src/unnamed/part_001`
(lines 313 to 315):
`filtered.reduce((sum, d) => sum + (d.temperature || 0), 0) / filtered.length`.
A missing (or zero) temperature contributes `0` to the sum while the
entry still counts in the denominator. -/
def avgTempVal (filtered : List Reading) : ℚ :=
  (filtered.foldl (fun sum d => sum + d.temperature.getD 0) 0) / (filtered.length : ℚ)

/-- The displayed average: the computed mean for a non-empty view and
the `--` placeholder (here `none`) for an empty one, as in the
`filtered.length > 0 ? ... : --` conditional. -/
def avgTemp (filtered : List Reading) : Option ℚ :=
  if 0 < filtered.length then some (avgTempVal filtered) else none

/-- The sum of the temperature values that are actually present in the
view, the quantity the claim about the average refers to. -/
def presentSum (filtered : List Reading) : ℚ :=
  (filtered.filterMap (fun d => d.temperature)).sum

/-- A concrete reading used by the counterexamples and witnesses. -/
def rdup : Reading := { inserted_at := 100, temperature := some 5, humidity := none }

/-- A concrete reading whose temperature is exactly zero. -/
def zeroTempRow : Reading := { inserted_at := 1000, temperature := some 0, humidity := none }

/-- C3: in automatic mode every toggle handler rejects the call with
the blocked-by-mode outcome, leaves the state untouched and issues no
command-sink write. -/
theorem toggle_blocked_in_automatic (s : CtrlState) (relayId : Nat) (writeOk : Bool)
    (h : s.automaticMode = true) :
    toggleRelay s relayId writeOk = blockedRun s ∧
    toggleRelay1 s writeOk = blockedRun s ∧
    toggleRelay2 s writeOk = blockedRun s := by
  refine ⟨?_, ?_, ?_⟩ <;> simp [toggleRelay, toggleRelay1, toggleRelay2, h]

/-- Witness for C3 at a concrete automatic-mode state. -/
theorem toggle_blocked_in_automatic_witness :
    toggleRelay ⟨false, false, true⟩ 1 true = blockedRun ⟨false, false, true⟩ ∧
    toggleRelay1 ⟨false, false, true⟩ true = blockedRun ⟨false, false, true⟩ ∧
    toggleRelay2 ⟨false, false, true⟩ true = blockedRun ⟨false, false, true⟩ :=
  toggle_blocked_in_automatic ⟨false, false, true⟩ 1 true rfl

/-- C4: in manual mode, when the write fails, each optimistic handler
first flips the relay state and then rolls back to exactly the
pre-toggle state, with no write left pending; the non-optimistic
`toggleRelay` of `src/src/App.jsx` likewise ends on the pre-toggle
state with no pending write. -/
theorem toggle_rollback_restores (s : CtrlState) (h : s.automaticMode = false) :
    ((toggleRelay1 s false).optimistic = some { s with relay1On := !s.relay1On } ∧
     (toggleRelay1 s false).final = s ∧
     (toggleRelay1 s false).pendingAfter = false) ∧
    ((toggleRelay2 s false).optimistic = some { s with relay2On := !s.relay2On } ∧
     (toggleRelay2 s false).final = s ∧
     (toggleRelay2 s false).pendingAfter = false) ∧
    (∀ relayId, (toggleRelay s relayId false).final = s ∧
      (toggleRelay s relayId false).pendingAfter = false) := by
  obtain ⟨r1, r2, am⟩ := s
  subst h
  refine ⟨⟨?_, ?_, ?_⟩, ⟨?_, ?_, ?_⟩, fun relayId => ⟨?_, ?_⟩⟩ <;>
    simp [toggleRelay, toggleRelay1, toggleRelay2]

/-- Witness for C4 at a concrete manual-mode state. -/
theorem toggle_rollback_restores_witness :
    (toggleRelay1 ⟨false, true, false⟩ false).final = ⟨false, true, false⟩ ∧
    (toggleRelay1 ⟨false, true, false⟩ false).pendingAfter = false :=
  ⟨(toggle_rollback_restores ⟨false, true, false⟩ rfl).1.2.1,
   (toggle_rollback_restores ⟨false, true, false⟩ rfl).1.2.2⟩

/-- C6 counterexample: starting from manual mode with relay 1 off, a
second `toggleRelay1` invocation issued while the first write is still
in flight is not rejected: it issues its own command-sink write, so two
writes occur instead of one. -/
theorem second_toggle_not_rejected_cex :
    (twoStarts ⟨false, false, false⟩).2 = [(1, true), (1, false)] ∧
    (twoStarts ⟨false, false, false⟩).2.length = 2 ∧
    (toggleRelay1Start (toggleRelay1Start ⟨false, false, false⟩).1).2 = some (1, false) := by
  refine ⟨rfl, rfl, rfl⟩

/-- C6 (amended): there is no in-flight-write guard.  In manual mode a
second toggle issued before the first write resolves is not rejected:
each invocation issues its own command-sink write, so the two calls
issue exactly two writes, the second one computed from the
optimistically flipped state (hence writing the original value back). -/
theorem second_toggle_issues_second_write (s : CtrlState) (h : s.automaticMode = false) :
    (twoStarts s).2 = [(1, !s.relay1On), (1, s.relay1On)] ∧
    (twoStarts s).2.length = 2 := by
  constructor
  · simp [twoStarts, toggleRelay1Start, h]
  · simp [twoStarts, toggleRelay1Start, h]

/-- Witness for the amended C6 at a concrete manual-mode state. -/
theorem second_toggle_issues_second_write_witness :
    (twoStarts ⟨true, false, false⟩).2 = [(1, false), (1, true)] ∧
    (twoStarts ⟨true, false, false⟩).2.length = 2 :=
  second_toggle_issues_second_write ⟨true, false, false⟩ rfl

/-- Invariant step: applying any well-formed merge operation to a
sorted store yields a sorted store. -/
theorem applyOp_sorted {s : List Reading} {op : MergeOp}
    (hs : sortedByTs s) (hop : opWF op) : sortedByTs (applyOp s op) := by
  cases op with
  | bulk rows => exact hop
  | push cutoff r => exact List.sorted_insertionSort tsLe _
  | poll latestRows refetchRows =>
    show sortedByTs (pollStep s latestRows refetchRows).1
    cases latestRows with
    | nil => exact hs
    | cons lr rest =>
      show sortedByTs
        (if currentLatestTs s < lr.inserted_at then (refetchRows, true) else (s, false)).1
      by_cases hlt : currentLatestTs s < lr.inserted_at
      · rw [if_pos hlt]; exact hop
      · rw [if_neg hlt]; exact hs

/-- Every interleaving of well-formed merge operations starting from a
sorted store keeps the store sorted. -/
theorem foldl_applyOp_sorted : ∀ (ops : List MergeOp) (init : List Reading),
    sortedByTs init → (∀ op ∈ ops, opWF op) →
    sortedByTs (List.foldl applyOp init ops)
  | [], _, hi, _ => hi
  | op :: ops, init, hi, h =>
    foldl_applyOp_sorted ops (applyOp init op)
      (applyOp_sorted hi (h op (List.mem_cons_self op ops)))
      (fun o ho => h o (List.mem_cons_of_mem op ho))

/-- C1 (amended): for every sequence of merge operations (bulk load,
push-delivered single readings, poll refetches) in any interleaving,
the resulting stored sequence is sorted ascending by timestamp
(non-strictly); entries with equal timestamps are however not
collapsed, so duplicate timestamps may remain. -/
theorem merge_interleaving_sorted (ops : List MergeOp) (h : ∀ op ∈ ops, opWF op) :
    sortedByTs (applyOps ops []) :=
  foldl_applyOp_sorted ops [] (List.sorted_nil) h

/-- Witness for the amended C1 on a concrete interleaving of a push
merge followed by a poll step. -/
theorem merge_interleaving_sorted_witness :
    sortedByTs (applyOps [MergeOp.push 0 rdup, MergeOp.poll [rdup] []] []) := by
  refine merge_interleaving_sorted _ ?_
  intro op hop
  simp only [List.mem_cons, List.not_mem_nil, or_false] at hop
  rcases hop with rfl | rfl
  · exact trivial
  · exact List.sorted_nil

/-- C1 counterexample: pushing the same reading twice leaves two
entries with the same timestamp in the store, so the stored sequence
does not have unique timestamps. -/
theorem merge_unique_timestamps_cex :
    applyOps [MergeOp.push 0 rdup, MergeOp.push 0 rdup] [] = [rdup, rdup] ∧
    ¬ List.Pairwise (fun a b : Reading => a.inserted_at ≠ b.inserted_at)
        (applyOps [MergeOp.push 0 rdup, MergeOp.push 0 rdup] []) := by
  constructor
  · rfl
  · decide

/-- C2 counterexample: merging the single-entry batch containing `rdup`
twice does not yield the same store as merging it once; the duplicate
is kept. -/
theorem merge_idempotent_cex :
    mergePush 0 (mergePush 0 [] rdup) rdup ≠ mergePush 0 [] rdup := by
  decide

/-- Counting the merged reading: a push merge of `r` into any store
contains one more copy of `r` than the filtered previous contents,
provided `r` lies inside the retention window. -/
theorem count_mergePush (cutoff : Nat) (s : List Reading) (r : Reading)
    (h : cutoff ≤ r.inserted_at) :
    (mergePush cutoff s r).count r
      = (s.filter (fun item => decide (cutoff ≤ item.inserted_at))).count r + 1 := by
  unfold mergePush
  rw [(List.perm_insertionSort tsLe _).count_eq]
  rw [List.filter_append, List.count_append]
  simp [h]

/-- Every entry of a push-merged store lies inside the retention
window. -/
theorem mem_mergePush_le {cutoff : Nat} {s : List Reading} {r x : Reading}
    (hx : x ∈ mergePush cutoff s r) : cutoff ≤ x.inserted_at := by
  unfold mergePush at hx
  rw [(List.perm_insertionSort tsLe _).mem_iff] at hx
  simpa using List.of_mem_filter hx

/-- Filtering a push-merged store by the retention window changes
nothing: the merge already enforced it. -/
theorem filter_mergePush (cutoff : Nat) (s : List Reading) (r : Reading) :
    (mergePush cutoff s r).filter (fun item => decide (cutoff ≤ item.inserted_at))
      = mergePush cutoff s r := by
  rw [List.filter_eq_self]
  intro a ha
  simpa using mem_mergePush_le ha

/-- C2 (amended): merging the single-entry batch containing `r` twice
does not collapse the duplicate: when `r` lies inside the retention
window, the twice-merged store holds exactly one more copy of `r` than
the once-merged store (the merge is not idempotent). -/
theorem merge_twice_appends_duplicate (cutoff : Nat) (prev : List Reading) (r : Reading)
    (h : cutoff ≤ r.inserted_at) :
    (mergePush cutoff (mergePush cutoff prev r) r).count r
      = (mergePush cutoff prev r).count r + 1 := by
  rw [count_mergePush cutoff _ r h, filter_mergePush]

/-- Witness for the amended C2 on the empty store and a concrete
reading. -/
theorem merge_twice_appends_duplicate_witness :
    (mergePush 0 (mergePush 0 [] rdup) rdup).count rdup
      = (mergePush 0 [] rdup).count rdup + 1 :=
  merge_twice_appends_duplicate 0 [] rdup (by decide)

/-- C5: retention is enforced by the merge itself, never deferred.
Under the time-window policy of `src/src/App.jsx` every entry of the
merged store lies inside the 24-hour window, and under the count policy
of `src/unnamed/part_002` the merged store never exceeds 100 entries. -/
theorem retention_enforced_on_merge :
    (∀ cutoff prev r x, x ∈ mergePush cutoff prev r → cutoff ≤ x.inserted_at) ∧
    (∀ prev r, (mergePushCount prev r).length ≤ 100) := by
  constructor
  · intro cutoff prev r x hx
    exact mem_mergePush_le hx
  · intro prev r
    by_cases hlen : (prev ++ [r]).length > 100
    · simp only [mergePushCount, if_pos hlen, List.length_drop]
      omega
    · simp only [mergePushCount, if_neg hlen]
      omega

/-- Witness for C5 on concrete merges under both policies. -/
theorem retention_enforced_on_merge_witness :
    (0 : Nat) ≤ rdup.inserted_at ∧ (mergePushCount [] rdup).length ≤ 100 :=
  ⟨retention_enforced_on_merge.1 0 [] rdup rdup (by decide),
   retention_enforced_on_merge.2 [] rdup⟩

/-- In a sorted store, every entry is bounded by the tail timestamp the
poll loop compares against (so the tail timestamp is the maximum). -/
theorem mem_le_currentLatestTs : ∀ {l : List Reading}, sortedByTs l →
    ∀ x ∈ l, x.inserted_at ≤ currentLatestTs l := by
  intro l
  induction l with
  | nil => intro _ x hx; cases hx
  | cons a t ih =>
    intro hs x hx
    cases t with
    | nil =>
      have hxa : x = a := by simpa using hx
      subst hxa
      simp [currentLatestTs]
    | cons b t2 =>
      have hs2 : sortedByTs (b :: t2) := hs.of_cons
      have hcur : currentLatestTs (a :: b :: t2) = currentLatestTs (b :: t2) := by
        simp [currentLatestTs, List.getLast?_cons_cons]
      rcases List.mem_cons.mp hx with rfl | hx2
      · have hab : tsLe x b := List.rel_of_sorted_cons hs b (List.mem_cons_self b t2)
        have hbl : b.inserted_at ≤ currentLatestTs (b :: t2) :=
          ih hs2 b (List.mem_cons_self b t2)
        rw [hcur]
        exact Nat.le_trans hab hbl
      · rw [hcur]
        exact ih hs2 x hx2

/-- C7: when the probed most-recent timestamp is not strictly greater
than the store maximum (in particular when they are equal), the poll
loop performs no refetch and leaves the store unchanged; a refetch
happens only when the probed timestamp is strictly newer.  The first
conjunct shows the compared tail timestamp really is the maximum of a
sorted store. -/
theorem poll_no_refetch_when_not_newer (data latestRows refetchRows : List Reading)
    (hs : sortedByTs data) :
    (∀ x ∈ data, x.inserted_at ≤ currentLatestTs data) ∧
    (∀ lr, latestRows.head? = some lr → lr.inserted_at ≤ currentLatestTs data →
      pollStep data latestRows refetchRows = (data, false)) ∧
    ((pollStep data latestRows refetchRows).2 = true →
      ∃ lr, latestRows.head? = some lr ∧ currentLatestTs data < lr.inserted_at) := by
  refine ⟨fun x hx => mem_le_currentLatestTs hs x hx, ?_, ?_⟩
  · intro lr hlr hle
    cases latestRows with
    | nil => cases hlr
    | cons l0 rest =>
      have hl0 : l0 = lr := by simpa using hlr
      subst hl0
      show (if currentLatestTs data < l0.inserted_at then (refetchRows, true)
            else (data, false)) = (data, false)
      rw [if_neg (by omega)]
  · intro href
    cases latestRows with
    | nil => exact absurd href (by simp [pollStep])
    | cons l0 rest =>
      by_cases hlt : currentLatestTs data < l0.inserted_at
      · exact ⟨l0, rfl, hlt⟩
      · exfalso
        have hps : pollStep data (l0 :: rest) refetchRows = (data, false) := by
          show (if currentLatestTs data < l0.inserted_at then (refetchRows, true)
                else (data, false)) = (data, false)
          rw [if_neg hlt]
        rw [hps] at href
        cases href

/-- Witness for C7: probing a timestamp equal to the store maximum
leaves the store unchanged with no refetch. -/
theorem poll_no_refetch_when_not_newer_witness :
    pollStep [rdup] [rdup] [] = ([rdup], false) :=
  (poll_no_refetch_when_not_newer [rdup] [rdup] []
    (List.sorted_singleton rdup)).2.1 rdup rfl (by decide)

/-- C8: the band classification sends a temperature to the Relay 1 band
exactly when `0 <= t <= 10`, to the Relay 2 band exactly when
`11 <= t <= 20`, and to the outside-control-ranges outcome exactly when
it lies in neither band; no temperature ever satisfies both band
checks. -/
theorem classify_bands (t : ℚ) :
    (classify t = RangeLabel.relay1Range ↔ 0 ≤ t ∧ t ≤ 10) ∧
    (classify t = RangeLabel.relay2Range ↔ 11 ≤ t ∧ t ≤ 20) ∧
    (classify t = RangeLabel.unclassified ↔
      ¬ (0 ≤ t ∧ t ≤ 10) ∧ ¬ (11 ≤ t ∧ t ≤ 20)) ∧
    ¬ (isInRelayRange t 1 = true ∧ isInRelayRange t 2 = true) := by
  have hdisj : ¬ ((0 ≤ t ∧ t ≤ 10) ∧ 11 ≤ t ∧ t ≤ 20) := by
    rintro ⟨⟨-, h10⟩, h11, -⟩
    linarith
  by_cases hb1 : 0 ≤ t ∧ t ≤ 10
  · have hb2 : ¬ (11 ≤ t ∧ t ≤ 20) := fun hx => hdisj ⟨hb1, hx⟩
    refine ⟨?_, ?_, ?_, ?_⟩ <;> simp [classify, isInRelayRange, hb1, hb2]
  · by_cases hb2 : 11 ≤ t ∧ t ≤ 20
    · refine ⟨?_, ?_, ?_, ?_⟩ <;> simp [classify, isInRelayRange, hb1, hb2]
    · refine ⟨?_, ?_, ?_, ?_⟩ <;> simp [classify, isInRelayRange, hb1, hb2]

/-- Witness for C8 at the scenario temperatures 5, 25 and 10.5. -/
theorem classify_bands_witness :
    classify 5 = RangeLabel.relay1Range ∧
    classify 25 = RangeLabel.unclassified ∧
    classify (21 / 2 : ℚ) = RangeLabel.unclassified :=
  ⟨(classify_bands 5).1.mpr (by norm_num),
   (classify_bands 25).2.2.1.mpr (by norm_num),
   (classify_bands (21 / 2)).2.2.1.mpr (by norm_num)⟩

/-- C9: evaluation at the failing input.  For the non-empty filtered
sequence whose last (and only) reading has temperature zero, the code
computes `currentTemp = null`, because the number `0` is falsy in
`latestReading?.temperature || null`; the claim requires the latest
value to be that reading rather than null. -/
theorem latest_zero_temperature_yields_null :
    ([zeroTempRow] : List Reading) ≠ [] ∧
    List.getLast? [zeroTempRow] = some zeroTempRow ∧
    zeroTempRow.temperature = some 0 ∧
    currentTemp [zeroTempRow] = none := by
  refine ⟨by decide, rfl, rfl, by decide⟩

/-- The fold in the average accumulates exactly the sum of the present
temperature values: a missing temperature contributes zero. -/
theorem foldl_temp_sum : ∀ (l : List Reading) (init : ℚ),
    l.foldl (fun sum d => sum + d.temperature.getD 0) init = init + presentSum l
  | [], init => by simp [presentSum]
  | d :: t, init => by
    have ih := foldl_temp_sum t (init + d.temperature.getD 0)
    simp only [List.foldl_cons]
    rw [ih]
    cases hd : d.temperature with
    | none => simp [presentSum, hd]
    | some v =>
      simp only [presentSum, List.filterMap_cons, hd, Option.getD_some, List.sum_cons]
      ring

/-- C10: for a non-empty filtered view, the windowed average equals the
sum of the present temperature values divided by the number of entries
in the view; entries lacking the field still count in the
denominator. -/
theorem average_counts_missing_in_denominator (filtered : List Reading)
    (h : filtered ≠ []) :
    avgTemp filtered = some (presentSum filtered / (filtered.length : ℚ)) := by
  have hlen : 0 < filtered.length := List.length_pos.mpr h
  simp only [avgTemp, if_pos hlen, avgTempVal, foldl_temp_sum, zero_add]

/-- A concrete two-entry view, one entry of which lacks the
temperature field. -/
def mixRows : List Reading :=
  [zeroTempRow, { inserted_at := 2000, temperature := none, humidity := none }]

/-- Witness for C10 on the concrete two-entry view. -/
theorem average_counts_missing_in_denominator_witness :
    avgTemp mixRows = some (presentSum mixRows / (mixRows.length : ℚ)) :=
  average_counts_missing_in_denominator mixRows (by decide)
